import Mathlib

/-!
Shallow embedding of the streaming backtest engine of the repository
under verification.  The repository contains two implementations of the
engine: the refactored package in src/core (src/core/data.py,
src/core/strategies.py), embedded in namespace Core below, and the
legacy monolith src/base.py, embedded in namespace BasePy.  Python
floats are modelled as exact rationals, Python ints as Int or Nat,
pandas timestamps as a pair of a calendar year and an absolute day
count, dataframes of (Date, Close) rows as lists of rows, and Python
dictionaries (which preserve insertion order) as association lists.
Rational division by zero is the Lean convention x / 0 = 0; every
modelled formula that divides is guarded the way the source guards it.
-/

/-- A pandas timestamp, observed through the two attributes the sources
use: subtraction measured in whole days (modelled by the absolute day
count `day`) and the calendar-year attribute `year`. -/
structure Date where
  day : Int
  year : Int
deriving DecidableEq, Repr

/-- One row of the price table: the Date and Close columns. -/
structure Row where
  date : Date
  close : Rat
deriving DecidableEq, Repr

/-- The state of DataGenerator (the class is identical in
src/core/data.py and src/base.py): the loaded table and the advancing
read index. -/
structure DataGenState where
  data : List Row
  index : Nat
deriving DecidableEq, Repr

/-- DataGenerator.iter_next_org_datas (src/core/data.py lines 73-95 and
src/base.py lines 74-96): when `index >= len(data) - 1` the generator
raises StopIteration; otherwise it returns the timestamp at `index`
together with the rows strictly before `index` and increments `index`. -/
def iter_next_org_datas (s : DataGenState) :
    Except String ((Date × List Row) × DataGenState) :=
  if s.data.length - 1 ≤ s.index then
    .error "No more data available"
  else
    .ok (((s.data[s.index]?.getD ⟨⟨0, 0⟩, 0⟩).date, s.data.take s.index),
         ⟨s.data, s.index + 1⟩)

/-- The last `w` elements of a list: the window of a trailing rolling
statistic. -/
def lastN (xs : List Rat) (w : Nat) : List Rat := xs.drop (xs.length - w)

/-- Arithmetic mean of a list of values (Series.mean()); the mean of an
empty list is the NaN placeholder `0`, which no guarded path exposes. -/
def listMean (xs : List Rat) : Rat := xs.sum / (xs.length : Rat)

/-- Series.rolling(window=w).mean().iloc[-1]: the mean of the last `w`
values when `1 <= w <= len`, and NaN (modelled as `none`) otherwise. -/
def rollLast (xs : List Rat) (w : Nat) : Option Rat :=
  if 1 ≤ w ∧ w ≤ xs.length then some (listMean (lastN xs w)) else none

/-- The expression org_data[account_column].iloc[-1]; every modelled call
site guards the frame to be non-empty, so the default is never exposed. -/
def lastClose (org : List Row) : Rat := (org.getLastD ⟨⟨0, 0⟩, 0⟩).close

/-- Indexing a Python dictionary modelled as an insertion-ordered
association list: the value stored under the key, if any. -/
def dictFind {R : Type} (y : Int) : List (Int × R) → Option R
  | [] => none
  | (k, v) :: t => if y = k then some v else dictFind y t

namespace Core

/-- The profit_info dictionary of BaseStrategy in src/core/strategies.py
(lines 140-144). -/
structure ProfitInfo where
  total_profit : Rat
  annualized_return : Rat
  current_total : Rat
deriving DecidableEq, Repr

/-- One fiscal-year record of FiscalYearReturnCalculator in
src/core/strategies.py (lines 44-52). -/
structure FYRec where
  start_date : Date
  initial_balance : Rat
  current_balance : Rat
  trade_count : Nat
  max_balance : Rat
  min_balance : Rat
deriving DecidableEq, Repr

/-- fiscal_year_data: an insertion-ordered dictionary from year to
record. -/
abbrev FYData := List (Int × FYRec)

/-- FiscalYearReturnCalculator.initialize_fiscal_year
(src/core/strategies.py lines 35-52): create the record only when the
year is absent; a fresh record is seeded entirely from the supplied
balance. -/
def init_fiscal_year (m : FYData) (d : Date) (b : Rat) : FYData :=
  match dictFind d.year m with
  | some _ => m
  | none => m ++ [(d.year, ⟨d, b, b, 0, b, b⟩)]

/-- FiscalYearReturnCalculator.update_fiscal_year_data
(src/core/strategies.py lines 54-72): when the year is present,
overwrite current_balance and trade_count and fold max/min. -/
def update_fiscal_year_data (m : FYData) (d : Date) (ct : Rat) (tc : Nat) :
    FYData :=
  m.map fun e =>
    if e.1 = d.year then
      (e.1, { e.2 with current_balance := ct, trade_count := tc,
                       max_balance := max e.2.max_balance ct,
                       min_balance := min e.2.min_balance ct })
    else e

/-- FiscalYearReturnCalculator.calculate_fiscal_year_return
(src/core/strategies.py lines 74-94): the plain cumulative fraction,
with no day-based annualization and no percent factor. -/
def calculate_fiscal_year_return (m : FYData) (fy : Int) : Rat :=
  match dictFind fy m with
  | none => 0
  | some data =>
    if data.initial_balance = 0 then 0
    else (data.current_balance - data.initial_balance) / data.initial_balance

/-- FiscalYearReturnCalculator.get_all_fiscal_year_returns
(src/core/strategies.py lines 96-106): iterates the dictionary keys in
insertion order. -/
def get_all_fiscal_year_returns (m : FYData) : List (Int × Rat) :=
  m.map fun e => (e.1, calculate_fiscal_year_return m e.1)

/-- The mutable fields of BaseStrategy in src/core/strategies.py
(lines 128-144). -/
structure Strategy where
  balance : Rat
  share_num : Int
  trade_count : Nat
  start_date : Option Date
  current_date : Option Date
  fiscal : FYData
  profit_info : ProfitInfo
deriving DecidableEq, Repr

/-- BaseStrategy.__init__ (src/core/strategies.py lines 128-144). -/
def strategyInit : Strategy := ⟨1000000, 0, 0, none, none, [], ⟨0, 0, 0⟩⟩

/-- BaseStrategy.set_start_date (src/core/strategies.py lines 180-184):
seeds the first fiscal-year record with the current balance. -/
def set_start_date (s : Strategy) (d : Date) : Strategy :=
  { s with start_date := some d,
           fiscal := init_fiscal_year s.fiscal d s.balance }

/-- BaseStrategy.execute_buy (src/core/strategies.py lines 186-201):
guarded by `cost <= balance`, otherwise a logged no-op. -/
def execute_buy (s : Strategy) (current_price : Rat) (shares_to_buy : Int) :
    Strategy :=
  let cost := current_price * (shares_to_buy : Rat)
  if cost ≤ s.balance then
    { s with balance := s.balance - cost,
             share_num := s.share_num + shares_to_buy,
             trade_count := s.trade_count + 1 }
  else s

/-- BaseStrategy.execute_sell (src/core/strategies.py lines 203-218):
guarded by `shares_to_sell <= share_num`, otherwise a logged no-op. -/
def execute_sell (s : Strategy) (current_price : Rat) (shares_to_sell : Int) :
    Strategy :=
  if shares_to_sell ≤ s.share_num then
    { s with balance := s.balance + current_price * (shares_to_sell : Rat),
             share_num := s.share_num - shares_to_sell,
             trade_count := s.trade_count + 1 }
  else s

/-- BaseStrategy._update_profit_info (src/core/strategies.py lines
220-258).  The annualized figure is the plain fraction
`(profit / 1000000) * (365 / days)`, with no percent factor.  The
trailing debug statement of the source reads `days_elapsed`, which is
unbound when either date is unset (a NameError); no modelled code path
reaches that case, so the model keeps the method total. -/
def update_profit_info (s : Strategy) (p : Rat) : Strategy :=
  let ct := s.balance + (s.share_num : Rat) * p
  let tp := ct - 1000000
  let ann :=
    match s.start_date, s.current_date with
    | some sd, some cd =>
      if 0 < cd.day - sd.day then
        (tp / 1000000) * (365 / ((cd.day - sd.day : Int) : Rat))
      else 0
    | _, _ => 0
  let fiscal' :=
    match s.current_date with
    | some cd => update_fiscal_year_data s.fiscal cd ct s.trade_count
    | none => s.fiscal
  { s with profit_info := ⟨tp, ann, ct⟩, fiscal := fiscal' }

/-- MeanStrategy.predict_price (src/core/strategies.py lines 300-320) on
the projected target column: short data falls back to the latest price,
an empty frame to 0.0, and a NaN rolling mean to the latest price. -/
def predict_price (closes : List Rat) (window : Nat) : Rat :=
  if closes.length < window then
    if 0 < closes.length then closes.getLastD 0 else 0
  else
    match rollLast closes window with
    | some m => m
    | none => closes.getLastD 0

/-- MeanStrategy.calculate_moving_averages (src/core/strategies.py lines
322-348): short data makes both averages fall back to the latest price
(or 0.0 on an empty frame); a NaN rolling mean also falls back to the
latest price. -/
def calculate_moving_averages (closes : List Rat) (sw lw : Nat) :
    Rat × Rat :=
  if closes.length < max sw lw then
    let p := if 0 < closes.length then closes.getLastD 0 else 0
    (p, p)
  else
    ((rollLast closes sw).getD (closes.getLastD 0),
     (rollLast closes lw).getD (closes.getLastD 0))

/-- MeanStrategy.should_buy (src/core/strategies.py lines 350-363):
`short_ma > long_ma and balance > 0`; the price argument is unused. -/
def should_buy (s : Strategy) (short_ma long_ma current_price : Rat) :
    Prop :=
  long_ma < short_ma ∧ 0 < s.balance

/-- MeanStrategy.should_sell (src/core/strategies.py lines 365-378):
`short_ma < long_ma and share_num > 0`; the price argument is unused. -/
def should_sell (s : Strategy) (short_ma long_ma current_price : Rat) :
    Prop :=
  short_ma < long_ma ∧ 0 < s.share_num

instance (s : Strategy) (a b c : Rat) : Decidable (should_buy s a b c) :=
  inferInstanceAs (Decidable (And _ _))

instance (s : Strategy) (a b c : Rat) : Decidable (should_sell s a b c) :=
  inferInstanceAs (Decidable (And _ _))

/-- Lines 399-404 of src/core/strategies.py: set the start date on the
first invocation, then record the step timestamp as the current date. -/
def step_dates (s : Strategy) (org : List Row) (ts : Date) : Strategy :=
  let s1 :=
    if s.start_date = none then
      set_start_date s (org.headD ⟨⟨0, 0⟩, 0⟩).date
    else s
  { s1 with current_date := some ts }

/-- Lines 406-411 of src/core/strategies.py: when the step timestamp
falls in a year with no record yet, seed that year with the current
total equity. -/
def step_fiscal_seed (s : Strategy) (p : Rat) (ts : Date) : Strategy :=
  if (dictFind ts.year s.fiscal).isSome then s
  else
    let ct := s.balance + (s.share_num : Rat) * p
    { s with fiscal := init_fiscal_year s.fiscal ts ct }

/-- Lines 416-420 of src/core/strategies.py: the trade decision — buy
has priority, then sell, else no trade. -/
def step_trade (s : Strategy) (short_ma long_ma : Rat) (p : Rat) :
    Strategy :=
  if should_buy s short_ma long_ma p then execute_buy s p 100
  else if should_sell s short_ma long_ma p then execute_sell s p 100
  else s

/-- MeanStrategy.execute_strategy (src/core/strategies.py lines
380-423): only an empty history skips the step; otherwise the dates are
set, a new fiscal year is seeded with the current total equity, the
trade decision runs on the (possibly fallback) moving averages, and the
profit info is settled. -/
def execute_strategy (s : Strategy) (org : List Row) (sw lw : Nat)
    (ts : Date) : Strategy :=
  if org.length = 0 then s
  else
    let p := lastClose org
    let ma := calculate_moving_averages (org.map Row.close) sw lw
    update_profit_info
      (step_trade (step_fiscal_seed (step_dates s org ts) p ts) ma.1 ma.2 p)
      p

end Core

namespace BasePy

/-- One fiscal-year record of FiscalYearReturnCalculator in src/base.py
(lines 446-452). -/
structure FYRec where
  start_balance : Rat
  start_date : Date
  end_balance : Rat
  end_date : Date
  trades : Nat
deriving DecidableEq, Repr

/-- fiscal_year_data: an insertion-ordered dictionary from year to
record. -/
abbrev FYData := List (Int × FYRec)

/-- FiscalYearReturnCalculator.initialize_fiscal_year (src/base.py lines
437-452): create the record only when the year is absent; a fresh record
is seeded entirely from the supplied balance and date. -/
def init_fiscal_year (m : FYData) (d : Date) (b : Rat) : FYData :=
  match dictFind d.year m with
  | some _ => m
  | none => m ++ [(d.year, ⟨b, d, b, d, 0⟩)]

/-- FiscalYearReturnCalculator.update_fiscal_year_data (src/base.py
lines 454-466): when the year is present, overwrite end_balance,
end_date and trades. -/
def update_fiscal_year_data (m : FYData) (d : Date) (ct : Rat) (tc : Nat) :
    FYData :=
  m.map fun e =>
    if e.1 = d.year then
      (e.1, { e.2 with end_balance := ct, end_date := d, trades := tc })
    else e

/-- FiscalYearReturnCalculator.calculate_fiscal_year_return (src/base.py
lines 468-495): 0 for an unknown year, a zero start balance, or a
non-positive day span; otherwise the linear day-based annualization
expressed as a percentage. -/
def calculate_fiscal_year_return (m : FYData) (fy : Int) : Rat :=
  match dictFind fy m with
  | none => 0
  | some data =>
    if data.start_balance = 0 then 0
    else
      let days := data.end_date.day - data.start_date.day
      if days ≤ 0 then 0
      else
        (data.end_balance - data.start_balance) / data.start_balance
          / ((days : Int) : Rat) * 365 * 100

/-- FiscalYearReturnCalculator.get_all_fiscal_year_returns (src/base.py
lines 497-506): iterates `sorted(keys)`. -/
def get_all_fiscal_year_returns (m : FYData) : List (Int × Rat) :=
  (List.insertionSort (· ≤ ·) (m.map Prod.fst)).map
    fun fy => (fy, calculate_fiscal_year_return m fy)

/-- The mutable fields of BaseStrategy in src/base.py (lines 526-536). -/
structure Strategy where
  balance : Rat
  share_num : Int
  last_action : Option String
  trade_count : Nat
  initial_balance : Rat
  total_profit : Rat
  annualized_return : Rat
  start_date : Option Date
  current_date : Option Date
  fiscal : FYData
deriving DecidableEq, Repr

/-- BaseStrategy.__init__ (src/base.py lines 526-536). -/
def strategyInit : Strategy :=
  ⟨1000000, 0, none, 0, 1000000, 0, 0, none, none, []⟩

/-- BaseStrategy.set_start_date (src/base.py lines 569-577): seeds the
first fiscal-year record with initial_balance. -/
def set_start_date (s : Strategy) (d : Date) : Strategy :=
  { s with start_date := some d,
           fiscal := init_fiscal_year s.fiscal d s.initial_balance }

/-- BaseStrategy.execute_buy (src/base.py lines 579-592): guarded by
`balance >= cost`, otherwise a silent no-op. -/
def execute_buy (s : Strategy) (current_price : Rat) (shares_to_buy : Int) :
    Strategy :=
  let cost := (shares_to_buy : Rat) * current_price
  if s.balance ≥ cost then
    { s with balance := s.balance - cost,
             share_num := s.share_num + shares_to_buy,
             trade_count := s.trade_count + 1,
             last_action := some "BUY" }
  else s

/-- BaseStrategy.execute_sell (src/base.py lines 594-606): executes
unconditionally, with no inventory check. -/
def execute_sell (s : Strategy) (current_price : Rat) (shares_to_sell : Int) :
    Strategy :=
  { s with balance := s.balance + (shares_to_sell : Rat) * current_price,
           share_num := s.share_num - shares_to_sell,
           trade_count := s.trade_count + 1,
           last_action := some "SELL" }

/-- BaseStrategy._update_profit_info (src/base.py lines 608-643): the
annualized figure is `(profit / initial_balance) / days * 365 * 100`
when the day span is positive, and 0 otherwise. -/
def update_profit_info (s : Strategy) (p : Rat) : Strategy :=
  let ct := s.balance + (s.share_num : Rat) * p
  let tp := ct - s.initial_balance
  let fiscal' :=
    match s.current_date with
    | some cd => update_fiscal_year_data s.fiscal cd ct s.trade_count
    | none => s.fiscal
  let ann :=
    match s.start_date, s.current_date with
    | some sd, some cd =>
      if 0 < cd.day - sd.day then
        tp / s.initial_balance / ((cd.day - sd.day : Int) : Rat) * 365 * 100
      else 0
    | _, _ => 0
  { s with total_profit := tp, annualized_return := ann, fiscal := fiscal' }

/-- MeanStrategy.calculate_moving_averages (src/base.py lines 705-718):
plain trailing rolling means with no fallback; a window longer than the
data yields NaN, modelled as none. -/
def calculate_moving_averages (closes : List Rat) (sw lw : Nat) :
    Option Rat × Option Rat :=
  (rollLast closes sw, rollLast closes lw)

/-- MeanStrategy.should_buy (src/base.py lines 720-730):
`short_ma > long_ma and balance >= current_price * 100`. -/
def should_buy (s : Strategy) (short_ma long_ma current_price : Rat) :
    Prop :=
  long_ma < short_ma ∧ current_price * 100 ≤ s.balance

/-- MeanStrategy.should_sell (src/base.py lines 732-742):
`short_ma < long_ma and share_num >= 100`. -/
def should_sell (s : Strategy) (short_ma long_ma current_price : Rat) :
    Prop :=
  short_ma < long_ma ∧ 100 ≤ s.share_num

instance (s : Strategy) (a b c : Rat) : Decidable (should_buy s a b c) :=
  inferInstanceAs (Decidable (And _ _))

instance (s : Strategy) (a b c : Rat) : Decidable (should_sell s a b c) :=
  inferInstanceAs (Decidable (And _ _))

/-- Lines 761-766 of src/base.py: set the start date on the first
invocation, then record the step timestamp as the current date. -/
def step_dates (s : Strategy) (org : List Row) (ts : Date) : Strategy :=
  let s1 :=
    if s.start_date = none then
      set_start_date s (org.headD ⟨⟨0, 0⟩, 0⟩).date
    else s
  { s1 with current_date := some ts }

/-- Lines 768-773 of src/base.py: when the step timestamp falls in a
year with no record yet, seed that year with the current total equity. -/
def step_fiscal_seed (s : Strategy) (p : Rat) (ts : Date) : Strategy :=
  if (dictFind ts.year s.fiscal).isSome then s
  else
    let ct := s.balance + (s.share_num : Rat) * p
    { s with fiscal := init_fiscal_year s.fiscal ts ct }

/-- Lines 778-782 of src/base.py: the trade decision on possibly-NaN
rolling means; a comparison with NaN is false, so a NaN average means no
trade. -/
def step_trade (s : Strategy) (short_ma long_ma : Option Rat) (p : Rat) :
    Strategy :=
  match short_ma, long_ma with
  | some sma, some lma =>
    if should_buy s sma lma p then execute_buy s p 100
    else if should_sell s sma lma p then execute_sell s p 100
    else s
  | _, _ => s

/-- MeanStrategy.execute_strategy (src/base.py lines 744-785): a history
shorter than the long window returns immediately; otherwise the dates
are set, a new fiscal year is seeded with the current total equity, the
trade decision runs on the rolling means, and the profit info is
settled. -/
def execute_strategy (s : Strategy) (org : List Row) (sw lw : Nat)
    (ts : Date) : Strategy :=
  if org.length < lw then s
  else
    let p := lastClose org
    let ma := calculate_moving_averages (org.map Row.close) sw lw
    update_profit_info
      (step_trade (step_fiscal_seed (step_dates s org ts) p ts) ma.1 ma.2 p)
      p

end BasePy

/-! Helper lemmas about the association-list model of Python dicts. -/

theorem dictFind_append_some {R : Type} {y : Int} {m : List (Int × R)}
    {r : R} (h : dictFind y m = some r) (l : List (Int × R)) :
    dictFind y (m ++ l) = some r := by
  induction m with
  | nil => simp [dictFind] at h
  | cons e t ih =>
    obtain ⟨k, v⟩ := e
    by_cases hk : y = k
    · simpa [dictFind, hk] using h
    · simp only [dictFind, hk, if_false, List.cons_append] at h ⊢
      exact ih h

theorem dictFind_append_none {R : Type} {y : Int} {m : List (Int × R)}
    (h : dictFind y m = none) (l : List (Int × R)) :
    dictFind y (m ++ l) = dictFind y l := by
  induction m with
  | nil => rfl
  | cons e t ih =>
    obtain ⟨k, v⟩ := e
    by_cases hk : y = k
    · simp [dictFind, hk] at h
    · simp only [dictFind, hk, if_false, List.cons_append] at h ⊢
      exact ih h

theorem dictFind_cons {R : Type} (y k : Int) (v : R) (t : List (Int × R)) :
    dictFind y ((k, v) :: t) = if y = k then some v else dictFind y t := rfl

theorem dictFind_map_entry {R : Type} (key : Int) (f : R → R) (y : Int)
    (m : List (Int × R)) :
    dictFind y (m.map fun e => if e.1 = key then (e.1, f e.2) else e)
      = (dictFind y m).map fun r => if y = key then f r else r := by
  induction m with
  | nil => rfl
  | cons e t ih =>
    obtain ⟨k, v⟩ := e
    simp only [List.map_cons]
    by_cases hk : k = key
    · rw [if_pos hk, dictFind_cons, dictFind_cons, ih]
      by_cases hy : y = k
      · rw [if_pos hy, if_pos hy]
        simp [hy.trans hk]
      · rw [if_neg hy, if_neg hy]
    · rw [if_neg hk, dictFind_cons, dictFind_cons, ih]
      by_cases hy : y = k
      · rw [if_pos hy, if_pos hy]
        have hyk : y ≠ key := fun h => hk ((hy.symm.trans h))
        simp [hyk]
      · rw [if_neg hy, if_neg hy]

/-- C9: buying or selling at price p, in either implementation, leaves
the total equity measured at p (cash plus shares valued at p) exactly
unchanged, whether the trade is accepted or rejected. -/
theorem trade_preserves_equity (sc : Core.Strategy) (sb : BasePy.Strategy)
    (p : Rat) (q : Int) :
    ((Core.execute_buy sc p q).balance
        + ((Core.execute_buy sc p q).share_num : Rat) * p
      = sc.balance + (sc.share_num : Rat) * p) ∧
    ((Core.execute_sell sc p q).balance
        + ((Core.execute_sell sc p q).share_num : Rat) * p
      = sc.balance + (sc.share_num : Rat) * p) ∧
    ((BasePy.execute_buy sb p q).balance
        + ((BasePy.execute_buy sb p q).share_num : Rat) * p
      = sb.balance + (sb.share_num : Rat) * p) ∧
    ((BasePy.execute_sell sb p q).balance
        + ((BasePy.execute_sell sb p q).share_num : Rat) * p
      = sb.balance + (sb.share_num : Rat) * p) := by
  refine ⟨?_, ?_, ?_, ?_⟩ <;>
    simp only [Core.execute_buy, Core.execute_sell, BasePy.execute_buy,
      BasePy.execute_sell] <;>
    (try split_ifs) <;> simp <;> ring

/-- C10: the core predict_price is total on an empty history for any
window of at least 1: the latest-price fallback is guarded by a length
check, so the result is 0.0 instead of an out-of-bounds access. -/
theorem predict_price_empty_total (w : Nat) (h : 1 ≤ w) :
    Core.predict_price [] w = 0 := by
  have h0 : ([] : List Rat).length < w := h
  simp only [Core.predict_price]
  rw [if_pos h0]
  rfl

theorem predict_price_empty_total_witness :
    (1 : Nat) ≤ 1 ∧ Core.predict_price [] 1 = 0 :=
  ⟨by decide, predict_price_empty_total 1 (by decide)⟩

/-- C2 (amended): in the core implementation the sell succeeds — adds
price times quantity to cash, subtracts the quantity from the holdings
and increments the trade count — exactly when the quantity is at most
the holdings, and otherwise is a complete no-op; consequently the core
ledger operations never drive the holdings negative from a state with
non-negative holdings. -/
theorem sell_guard_core (s : Core.Strategy) (p : Rat) (q : Int) :
    (q ≤ s.share_num →
      Core.execute_sell s p q
        = { s with balance := s.balance + p * (q : Rat),
                   share_num := s.share_num - q,
                   trade_count := s.trade_count + 1 }) ∧
    (s.share_num < q → Core.execute_sell s p q = s) ∧
    (0 ≤ s.share_num → 0 ≤ (Core.execute_sell s p q).share_num) ∧
    (0 ≤ s.share_num → 0 ≤ q → 0 ≤ (Core.execute_buy s p q).share_num) := by
  refine ⟨fun h => ?_, fun h => ?_, fun h => ?_, fun h hq => ?_⟩
  · simp only [Core.execute_sell]
    rw [if_pos h]
  · simp only [Core.execute_sell]
    rw [if_neg (not_le.mpr h)]
  · by_cases hq2 : q ≤ s.share_num
    · simp only [Core.execute_sell, if_pos hq2]
      omega
    · simp only [Core.execute_sell, if_neg hq2]
      exact h
  · simp only [Core.execute_buy]
    split_ifs
    · simp only [Core.Strategy.mk.injEq]
      omega
    · exact h

theorem sell_guard_core_witness :
    (100 : Int) ≤ 200 ∧
    Core.execute_sell ⟨1000, 200, 3, none, none, [], ⟨0, 0, 0⟩⟩ 5 100
      = ⟨1500, 100, 4, none, none, [], ⟨0, 0, 0⟩⟩ := by
  refine ⟨by decide, ?_⟩
  rw [(sell_guard_core ⟨1000, 200, 3, none, none, [], ⟨0, 0, 0⟩⟩ 5 100).1
    (by decide)]
  norm_num

/-- C2 counterexample: the legacy execute_sell in src/base.py applies no
inventory check — selling 100 shares from an empty portfolio is not a
no-op and drives the holdings to -100. -/
theorem sell_unguarded_base_cex :
    (BasePy.execute_sell BasePy.strategyInit 5 100).share_num = -100 ∧
    BasePy.execute_sell BasePy.strategyInit 5 100 ≠ BasePy.strategyInit := by
  constructor
  · norm_num [BasePy.execute_sell, BasePy.strategyInit]
  · intro h
    have h2 := congrArg BasePy.Strategy.share_num h
    norm_num [BasePy.execute_sell, BasePy.strategyInit] at h2

/-- C6 (amended): in src/base.py, a call of execute_strategy with a
history shorter than the long window returns the state completely
unchanged — no trade and no settlement of any figure. -/
theorem skip_short_history_base (s : BasePy.Strategy) (org : List Row)
    (sw lw : Nat) (ts : Date) (h : org.length < lw) :
    BasePy.execute_strategy s org sw lw ts = s := by
  simp [BasePy.execute_strategy, h]

theorem skip_short_history_base_witness :
    ([(⟨⟨0, 2023⟩, 100⟩ : Row)].length < 2) ∧
    BasePy.execute_strategy BasePy.strategyInit [⟨⟨0, 2023⟩, 100⟩] 1 2
        ⟨1, 2023⟩
      = BasePy.strategyInit :=
  ⟨by decide, skip_short_history_base _ _ _ _ _ (by decide)⟩

/-- C6 counterexample: the core execute_strategy settles even when the
history (one row) is shorter than the long window (20): the step makes
no trade, but the profit figures and dates are updated, so the state is
not left as it was. -/
theorem settle_short_history_core_cex :
    (Core.execute_strategy Core.strategyInit [⟨⟨0, 2023⟩, 100⟩] 5 20
        ⟨1, 2023⟩).profit_info.current_total = 1000000 ∧
    Core.strategyInit.profit_info.current_total = 0 ∧
    (Core.execute_strategy Core.strategyInit [⟨⟨0, 2023⟩, 100⟩] 5 20
        ⟨1, 2023⟩).trade_count = 0 ∧
    Core.execute_strategy Core.strategyInit [⟨⟨0, 2023⟩, 100⟩] 5 20 ⟨1, 2023⟩
      ≠ Core.strategyInit := by
  have h1 : (Core.execute_strategy Core.strategyInit [⟨⟨0, 2023⟩, 100⟩] 5 20
      ⟨1, 2023⟩).profit_info.current_total = 1000000 := by
    norm_num [Core.execute_strategy, Core.strategyInit, Core.set_start_date,
      Core.init_fiscal_year, Core.update_profit_info, Core.step_dates,
      Core.step_fiscal_seed, Core.step_trade,
      Core.calculate_moving_averages, Core.should_buy, Core.should_sell,
      Core.execute_buy, Core.execute_sell, Core.update_fiscal_year_data,
      dictFind, lastClose, listMean, lastN, rollLast]
  have h3 : (Core.execute_strategy Core.strategyInit [⟨⟨0, 2023⟩, 100⟩] 5 20
      ⟨1, 2023⟩).trade_count = 0 := by
    norm_num [Core.execute_strategy, Core.strategyInit, Core.set_start_date,
      Core.init_fiscal_year, Core.update_profit_info, Core.step_dates,
      Core.step_fiscal_seed, Core.step_trade,
      Core.calculate_moving_averages, Core.should_buy, Core.should_sell,
      Core.execute_buy, Core.execute_sell, Core.update_fiscal_year_data,
      dictFind, lastClose, listMean, lastN, rollLast]
  refine ⟨h1, rfl, h3, fun h => ?_⟩
  rw [h] at h1
  norm_num [Core.strategyInit] at h1

/-- C3 (amended): in src/base.py, the overall annualized return written
by a settled step is 0 when the current date is at or before the start
date (in particular when they are equal), and otherwise equals
((current_total - initial_cash) / initial_cash) / days_elapsed * 365 *
100, a simple non-compounding annualization expressed as a percentage. -/
theorem annualized_return_formula_base (s : BasePy.Strategy) (p : Rat)
    (sd cd : Date) (h1 : s.start_date = some sd)
    (h2 : s.current_date = some cd) :
    (cd.day ≤ sd.day →
      (BasePy.update_profit_info s p).annualized_return = 0) ∧
    (sd.day < cd.day →
      (BasePy.update_profit_info s p).annualized_return
        = (s.balance + (s.share_num : Rat) * p - s.initial_balance)
            / s.initial_balance / ((cd.day - sd.day : Int) : Rat)
            * 365 * 100) ∧
    (cd = sd → (BasePy.update_profit_info s p).annualized_return = 0) := by
  refine ⟨fun h => ?_, fun h => ?_, fun h => ?_⟩
  · simp only [BasePy.update_profit_info, h1, h2]
    rw [if_neg (by omega)]
  · simp only [BasePy.update_profit_info, h1, h2]
    rw [if_pos (by omega)]
  · simp only [BasePy.update_profit_info, h1, h2]
    rw [if_neg (by simp [h])]

theorem annualized_return_formula_base_witness :
    ((0 : Int) < 73) ∧
    (BasePy.update_profit_info
        ⟨1100000, 0, none, 0, 1000000, 0, 0, some ⟨0, 2023⟩,
          some ⟨73, 2023⟩, []⟩ 10).annualized_return
      = (1100000 + ((0 : Int) : Rat) * 10 - 1000000) / 1000000
          / (((73 : Int) - 0 : Int) : Rat) * 365 * 100 :=
  ⟨by decide,
   (annualized_return_formula_base
       ⟨1100000, 0, none, 0, 1000000, 0, 0, some ⟨0, 2023⟩,
         some ⟨73, 2023⟩, []⟩ 10 ⟨0, 2023⟩ ⟨73, 2023⟩ rfl rfl).2.1
     (by decide)⟩

/-- C3 counterexample: the core implementation stores the annualized
return as a plain fraction without the * 100 percent factor: a doubled
account over exactly one year yields 1, not the 100 the claim's formula
requires. -/
theorem annualized_return_fraction_core_cex :
    (Core.update_profit_info
        ⟨2000000, 0, 0, some ⟨0, 2023⟩, some ⟨365, 2024⟩, [], ⟨0, 0, 0⟩⟩
        10).profit_info.annualized_return = 1 ∧
    (Core.update_profit_info
        ⟨2000000, 0, 0, some ⟨0, 2023⟩, some ⟨365, 2024⟩, [], ⟨0, 0, 0⟩⟩
        10).profit_info.annualized_return
      ≠ (2000000 + ((0 : Int) : Rat) * 10 - 1000000) / 1000000
          / (((365 : Int) - 0 : Int) : Rat) * 365 * 100 := by
  constructor
  · norm_num [Core.update_profit_info, Core.update_fiscal_year_data]
  · norm_num [Core.update_profit_info, Core.update_fiscal_year_data]

/-- C4 (amended): in src/base.py, the per-period return is 0 when the
period is unknown, its start balance is 0, or its elapsed days are not
positive, and otherwise equals ((end_balance - start_balance) /
start_balance) / days_elapsed * 365 * 100 — the same linear
annualization as the overall figure, applied per period. -/
theorem period_return_formula_base (m : BasePy.FYData) (fy : Int) :
    (dictFind fy m = none → BasePy.calculate_fiscal_year_return m fy = 0) ∧
    (∀ r : BasePy.FYRec, dictFind fy m = some r →
      (r.start_balance = 0 → BasePy.calculate_fiscal_year_return m fy = 0) ∧
      (r.end_date.day - r.start_date.day ≤ 0 →
        BasePy.calculate_fiscal_year_return m fy = 0) ∧
      (r.start_balance ≠ 0 → 0 < r.end_date.day - r.start_date.day →
        BasePy.calculate_fiscal_year_return m fy
          = (r.end_balance - r.start_balance) / r.start_balance
              / ((r.end_date.day - r.start_date.day : Int) : Rat)
              * 365 * 100)) := by
  constructor
  · intro h
    simp [BasePy.calculate_fiscal_year_return, h]
  · intro r h
    refine ⟨fun h0 => ?_, fun hd => ?_, fun h0 hd => ?_⟩
    · simp [BasePy.calculate_fiscal_year_return, h, h0]
    · simp only [BasePy.calculate_fiscal_year_return, h]
      split_ifs <;> rfl
    · simp only [BasePy.calculate_fiscal_year_return, h]
      rw [if_neg h0, if_neg (by omega)]

theorem period_return_formula_base_witness :
    dictFind 2023 [((2023 : Int), (⟨200, ⟨0, 2023⟩, 300, ⟨146, 2023⟩, 2⟩ :
        BasePy.FYRec))]
        = some ⟨200, ⟨0, 2023⟩, 300, ⟨146, 2023⟩, 2⟩ ∧
    BasePy.calculate_fiscal_year_return
        [((2023 : Int), ⟨200, ⟨0, 2023⟩, 300, ⟨146, 2023⟩, 2⟩)] 2023
      = ((300 : Rat) - 200) / 200 / (((146 : Int) - 0 : Int) : Rat)
          * 365 * 100 :=
  ⟨by simp [dictFind],
   ((period_return_formula_base
       [((2023 : Int), ⟨200, ⟨0, 2023⟩, 300, ⟨146, 2023⟩, 2⟩)] 2023).2
     ⟨200, ⟨0, 2023⟩, 300, ⟨146, 2023⟩, 2⟩ (by simp [dictFind])).2.2
     (by norm_num) (by decide)⟩

/-- C4 counterexample: the core implementation ignores dates entirely —
a period whose start and end observations fall on the same day (elapsed
days 0, where the claim requires 0) still reports the raw cumulative
fraction, here 1. -/
theorem period_return_not_annualized_core_cex :
    Core.calculate_fiscal_year_return
        (Core.update_fiscal_year_data
          (Core.init_fiscal_year [] ⟨30, 2023⟩ 100) ⟨30, 2023⟩ 200 1)
        2023 = 1 ∧
    (1 : Rat) ≠ 0 := by
  constructor
  · norm_num [Core.calculate_fiscal_year_return, Core.update_fiscal_year_data,
      Core.init_fiscal_year, dictFind]
  · norm_num

/-- C1: for a cursor position with at least two trailing rows the
advance returns the timestamp at the current position together with the
rows strictly before it — a history whose length is exactly the
pre-advance position — and increments the position by exactly one; a
position at or beyond the last valid index fails with the exhaustion
signal instead of returning a pair. -/
theorem cursor_advance_spec (s : DataGenState) :
    (s.index + 1 < s.data.length →
      ∃ hist s2, iter_next_org_datas s
          = .ok (((s.data[s.index]?.getD ⟨⟨0, 0⟩, 0⟩).date, hist), s2) ∧
        hist.length = s.index ∧ s2.index = s.index + 1 ∧
        s2.data = s.data ∧ hist = s.data.take s.index) ∧
    (s.data.length ≤ s.index + 1 →
      ∃ msg, iter_next_org_datas s = .error msg) := by
  constructor
  · intro h
    have hg : ¬ (s.data.length - 1 ≤ s.index) := by omega
    refine ⟨s.data.take s.index, ⟨s.data, s.index + 1⟩, ?_, ?_, rfl, rfl, rfl⟩
    · simp only [iter_next_org_datas]
      rw [if_neg hg]
    · rw [List.length_take]
      omega
  · intro h
    have hg : s.data.length - 1 ≤ s.index := by omega
    refine ⟨"No more data available", ?_⟩
    simp only [iter_next_org_datas]
    rw [if_pos hg]

theorem cursor_advance_spec_witness :
    ((1 : Nat) + 1 < 3) ∧
    (∃ hist s2, iter_next_org_datas
        ⟨[⟨⟨0, 2023⟩, 10⟩, ⟨⟨1, 2023⟩, 11⟩, ⟨⟨2, 2023⟩, 12⟩], 1⟩
        = .ok (((([⟨⟨0, 2023⟩, 10⟩, ⟨⟨1, 2023⟩, 11⟩,
              ⟨⟨2, 2023⟩, 12⟩] : List Row)[1]?.getD
                (⟨⟨0, 0⟩, 0⟩ : Row)).date, hist),
            s2) ∧
      hist.length = 1 ∧ s2.index = 1 + 1 ∧
      s2.data = [⟨⟨0, 2023⟩, 10⟩, ⟨⟨1, 2023⟩, 11⟩, ⟨⟨2, 2023⟩, 12⟩] ∧
      hist = ([⟨⟨0, 2023⟩, 10⟩, ⟨⟨1, 2023⟩, 11⟩,
          ⟨⟨2, 2023⟩, 12⟩] : List Row).take 1) :=
  ⟨by decide,
   (cursor_advance_spec
       ⟨[⟨⟨0, 2023⟩, 10⟩, ⟨⟨1, 2023⟩, 11⟩, ⟨⟨2, 2023⟩, 12⟩], 1⟩).1
     (by decide)⟩

/-- C8 (amended): in src/base.py, get_all_fiscal_year_returns enumerates
the per-period return of every known period in ascending order of the
period key (the keys of the result are sorted and are a permutation of
the known keys, and every known period appears with its period return). -/
theorem all_returns_sorted_base (m : BasePy.FYData) :
    ((BasePy.get_all_fiscal_year_returns m).map Prod.fst).Sorted (· ≤ ·) ∧
    ((BasePy.get_all_fiscal_year_returns m).map Prod.fst).Perm
      (m.map Prod.fst) ∧
    (∀ fy : Int, fy ∈ m.map Prod.fst →
      (fy, BasePy.calculate_fiscal_year_return m fy)
        ∈ BasePy.get_all_fiscal_year_returns m) := by
  have hmap : (BasePy.get_all_fiscal_year_returns m).map Prod.fst
      = List.insertionSort (· ≤ ·) (m.map Prod.fst) := by
    simp only [BasePy.get_all_fiscal_year_returns, List.map_map]
    exact List.map_id _
  refine ⟨?_, ?_, ?_⟩
  · rw [hmap]
    exact List.sorted_insertionSort _ _
  · rw [hmap]
    exact List.perm_insertionSort _ _
  · intro fy hfy
    have hmem : fy ∈ List.insertionSort (· ≤ ·) (m.map Prod.fst) :=
      (List.perm_insertionSort _ _).mem_iff.mpr hfy
    exact List.mem_map_of_mem _ hmem

theorem all_returns_sorted_base_witness :
    ((2023 : Int) ∈ ([((2024 : Int), (⟨100, ⟨0, 2024⟩, 150, ⟨10, 2024⟩, 1⟩ :
        BasePy.FYRec)), ((2023 : Int), ⟨100, ⟨0, 2023⟩, 120, ⟨10, 2023⟩, 1⟩)] :
        BasePy.FYData).map Prod.fst) ∧
    ((2023 : Int), BasePy.calculate_fiscal_year_return
        [((2024 : Int), ⟨100, ⟨0, 2024⟩, 150, ⟨10, 2024⟩, 1⟩),
         ((2023 : Int), ⟨100, ⟨0, 2023⟩, 120, ⟨10, 2023⟩, 1⟩)] 2023)
      ∈ BasePy.get_all_fiscal_year_returns
        [((2024 : Int), ⟨100, ⟨0, 2024⟩, 150, ⟨10, 2024⟩, 1⟩),
         ((2023 : Int), ⟨100, ⟨0, 2023⟩, 120, ⟨10, 2023⟩, 1⟩)] :=
  ⟨by simp,
   (all_returns_sorted_base
       [((2024 : Int), ⟨100, ⟨0, 2024⟩, 150, ⟨10, 2024⟩, 1⟩),
        ((2023 : Int), ⟨100, ⟨0, 2023⟩, 120, ⟨10, 2023⟩, 1⟩)]).2.2 2023
     (by simp)⟩

/-- C8 counterexample: the core get_all_fiscal_year_returns enumerates
in dictionary insertion order, not ascending key order — a tracker whose
2024 period was created before its 2023 period is listed as
[2024, 2023], which is not sorted ascending. -/
theorem all_returns_order_core_cex :
    (Core.get_all_fiscal_year_returns
        (Core.init_fiscal_year
          (Core.init_fiscal_year [] ⟨800, 2024⟩ 100) ⟨30, 2023⟩ 100)).map
        Prod.fst = [2024, 2023] ∧
    ¬ ((Core.get_all_fiscal_year_returns
        (Core.init_fiscal_year
          (Core.init_fiscal_year [] ⟨800, 2024⟩ 100) ⟨30, 2023⟩ 100)).map
        Prod.fst).Sorted (· ≤ ·) := by
  have h : (Core.get_all_fiscal_year_returns
      (Core.init_fiscal_year
        (Core.init_fiscal_year [] ⟨800, 2024⟩ 100) ⟨30, 2023⟩ 100)).map
      Prod.fst = [2024, 2023] := by
    norm_num [Core.get_all_fiscal_year_returns, Core.init_fiscal_year,
      dictFind]
  refine ⟨h, fun hs => ?_⟩
  rw [h] at hs
  have h2 := List.rel_of_sorted_cons hs 2023 (by simp)
  omega

/-! Frame lemmas for the per-step theorems: the trade operations do not
touch the fiscal records or the dates, and the settlement does not touch
the cash, holdings or trade count. -/

theorem core_buy_frame (s : Core.Strategy) (p : Rat) (q : Int) :
    (Core.execute_buy s p q).fiscal = s.fiscal ∧
    (Core.execute_buy s p q).current_date = s.current_date := by
  simp only [Core.execute_buy]
  split_ifs <;> exact ⟨rfl, rfl⟩

theorem core_sell_frame (s : Core.Strategy) (p : Rat) (q : Int) :
    (Core.execute_sell s p q).fiscal = s.fiscal ∧
    (Core.execute_sell s p q).current_date = s.current_date := by
  simp only [Core.execute_sell]
  split_ifs <;> exact ⟨rfl, rfl⟩

theorem core_step_trade_frame (s : Core.Strategy) (a b p : Rat) :
    (Core.step_trade s a b p).fiscal = s.fiscal ∧
    (Core.step_trade s a b p).current_date = s.current_date := by
  simp only [Core.step_trade]
  split_ifs
  · exact core_buy_frame s p 100
  · exact core_sell_frame s p 100
  · exact ⟨rfl, rfl⟩

theorem base_buy_frame (s : BasePy.Strategy) (p : Rat) (q : Int) :
    (BasePy.execute_buy s p q).fiscal = s.fiscal ∧
    (BasePy.execute_buy s p q).current_date = s.current_date := by
  simp only [BasePy.execute_buy]
  split_ifs <;> exact ⟨rfl, rfl⟩

theorem base_sell_frame (s : BasePy.Strategy) (p : Rat) (q : Int) :
    (BasePy.execute_sell s p q).fiscal = s.fiscal ∧
    (BasePy.execute_sell s p q).current_date = s.current_date :=
  ⟨rfl, rfl⟩

theorem base_step_trade_frame (s : BasePy.Strategy) (a b : Option Rat)
    (p : Rat) :
    (BasePy.step_trade s a b p).fiscal = s.fiscal ∧
    (BasePy.step_trade s a b p).current_date = s.current_date := by
  cases a with
  | none => exact ⟨rfl, rfl⟩
  | some sma =>
    cases b with
    | none => exact ⟨rfl, rfl⟩
    | some lma =>
      simp only [BasePy.step_trade]
      split_ifs
      · exact base_buy_frame s p 100
      · exact base_sell_frame s p 100
      · exact ⟨rfl, rfl⟩

theorem core_buy_pst_frame (s : Core.Strategy) (p : Rat) (q : Int) :
    (Core.execute_buy s p q).start_date = s.start_date := by
  simp only [Core.execute_buy]
  split_ifs <;> rfl

theorem base_upd_frame (s : BasePy.Strategy) (p : Rat) :
    (BasePy.update_profit_info s p).balance = s.balance ∧
    (BasePy.update_profit_info s p).share_num = s.share_num ∧
    (BasePy.update_profit_info s p).trade_count = s.trade_count :=
  ⟨rfl, rfl, rfl⟩

theorem core_upd_frame (s : Core.Strategy) (p : Rat) :
    (Core.update_profit_info s p).balance = s.balance ∧
    (Core.update_profit_info s p).share_num = s.share_num ∧
    (Core.update_profit_info s p).trade_count = s.trade_count :=
  ⟨rfl, rfl, rfl⟩

theorem base_seed_frame (s : BasePy.Strategy) (p : Rat) (ts : Date) :
    (BasePy.step_fiscal_seed s p ts).balance = s.balance ∧
    (BasePy.step_fiscal_seed s p ts).share_num = s.share_num ∧
    (BasePy.step_fiscal_seed s p ts).trade_count = s.trade_count ∧
    (BasePy.step_fiscal_seed s p ts).current_date = s.current_date := by
  simp only [BasePy.step_fiscal_seed]
  split_ifs <;> exact ⟨rfl, rfl, rfl, rfl⟩

theorem core_seed_frame (s : Core.Strategy) (p : Rat) (ts : Date) :
    (Core.step_fiscal_seed s p ts).balance = s.balance ∧
    (Core.step_fiscal_seed s p ts).share_num = s.share_num ∧
    (Core.step_fiscal_seed s p ts).trade_count = s.trade_count ∧
    (Core.step_fiscal_seed s p ts).current_date = s.current_date := by
  simp only [Core.step_fiscal_seed]
  split_ifs <;> exact ⟨rfl, rfl, rfl, rfl⟩

theorem base_dates_frame (s : BasePy.Strategy) (org : List Row) (ts : Date) :
    (BasePy.step_dates s org ts).balance = s.balance ∧
    (BasePy.step_dates s org ts).share_num = s.share_num ∧
    (BasePy.step_dates s org ts).trade_count = s.trade_count ∧
    (BasePy.step_dates s org ts).current_date = some ts := by
  simp only [BasePy.step_dates, BasePy.set_start_date]
  split_ifs <;> simp

theorem core_dates_frame (s : Core.Strategy) (org : List Row) (ts : Date) :
    (Core.step_dates s org ts).balance = s.balance ∧
    (Core.step_dates s org ts).share_num = s.share_num ∧
    (Core.step_dates s org ts).trade_count = s.trade_count ∧
    (Core.step_dates s org ts).current_date = some ts := by
  simp only [Core.step_dates, Core.set_start_date]
  split_ifs <;> simp

/-! Characterization of the fiscal records across one settled step. -/

theorem base_upd_fiscal (x : BasePy.Strategy) (p : Rat) (ts : Date)
    (h : x.current_date = some ts) :
    (BasePy.update_profit_info x p).fiscal
      = BasePy.update_fiscal_year_data x.fiscal ts
          (x.balance + (x.share_num : Rat) * p) x.trade_count := by
  simp only [BasePy.update_profit_info, h]

theorem core_upd_fiscal (x : Core.Strategy) (p : Rat) (ts : Date)
    (h : x.current_date = some ts) :
    (Core.update_profit_info x p).fiscal
      = Core.update_fiscal_year_data x.fiscal ts
          (x.balance + (x.share_num : Rat) * p) x.trade_count := by
  simp only [Core.update_profit_info, h]

theorem base_settle_fiscal (x : BasePy.Strategy) (ma1 ma2 : Option Rat)
    (p : Rat) (ts : Date) (hcd : x.current_date = some ts) :
    ∃ ct tc,
      (BasePy.update_profit_info (BasePy.step_trade x ma1 ma2 p) p).fiscal
        = BasePy.update_fiscal_year_data x.fiscal ts ct tc := by
  obtain ⟨hf, hc⟩ := base_step_trade_frame x ma1 ma2 p
  refine ⟨(BasePy.step_trade x ma1 ma2 p).balance
      + ((BasePy.step_trade x ma1 ma2 p).share_num : Rat) * p,
    (BasePy.step_trade x ma1 ma2 p).trade_count, ?_⟩
  rw [base_upd_fiscal _ p ts (hc.trans hcd), hf]

theorem core_settle_fiscal (x : Core.Strategy) (ma1 ma2 : Rat)
    (p : Rat) (ts : Date) (hcd : x.current_date = some ts) :
    ∃ ct tc,
      (Core.update_profit_info (Core.step_trade x ma1 ma2 p) p).fiscal
        = Core.update_fiscal_year_data x.fiscal ts ct tc := by
  obtain ⟨hf, hc⟩ := core_step_trade_frame x ma1 ma2 p
  refine ⟨(Core.step_trade x ma1 ma2 p).balance
      + ((Core.step_trade x ma1 ma2 p).share_num : Rat) * p,
    (Core.step_trade x ma1 ma2 p).trade_count, ?_⟩
  rw [core_upd_fiscal _ p ts (hc.trans hcd), hf]

theorem base_find_update (m : BasePy.FYData) (d : Date) (ct : Rat)
    (tc : Nat) (y : Int) :
    dictFind y (BasePy.update_fiscal_year_data m d ct tc)
      = (dictFind y m).map fun r =>
          if y = d.year then
            { r with end_balance := ct, end_date := d, trades := tc }
          else r :=
  dictFind_map_entry d.year
    (fun r : BasePy.FYRec =>
      { r with end_balance := ct, end_date := d, trades := tc }) y m

theorem core_find_update (m : Core.FYData) (d : Date) (ct : Rat)
    (tc : Nat) (y : Int) :
    dictFind y (Core.update_fiscal_year_data m d ct tc)
      = (dictFind y m).map fun r =>
          if y = d.year then
            { r with current_balance := ct, trade_count := tc,
                     max_balance := max r.max_balance ct,
                     min_balance := min r.min_balance ct }
          else r :=
  dictFind_map_entry d.year
    (fun r : Core.FYRec =>
      { r with current_balance := ct, trade_count := tc,
               max_balance := max r.max_balance ct,
               min_balance := min r.min_balance ct }) y m

theorem base_seed_fiscal_new (x : BasePy.Strategy) (p : Rat) (ts : Date)
    (hnone : dictFind ts.year x.fiscal = none) :
    (BasePy.step_fiscal_seed x p ts).fiscal
      = x.fiscal ++ [(ts.year,
          (⟨x.balance + (x.share_num : Rat) * p, ts,
            x.balance + (x.share_num : Rat) * p, ts, 0⟩ : BasePy.FYRec))] := by
  simp only [BasePy.step_fiscal_seed, hnone, Option.isSome_none,
    Bool.false_eq_true, if_false, BasePy.init_fiscal_year, hnone]

theorem core_seed_fiscal_new (x : Core.Strategy) (p : Rat) (ts : Date)
    (hnone : dictFind ts.year x.fiscal = none) :
    (Core.step_fiscal_seed x p ts).fiscal
      = x.fiscal ++ [(ts.year,
          (⟨ts, x.balance + (x.share_num : Rat) * p,
            x.balance + (x.share_num : Rat) * p, 0,
            x.balance + (x.share_num : Rat) * p,
            x.balance + (x.share_num : Rat) * p⟩ : Core.FYRec))] := by
  simp only [Core.step_fiscal_seed, hnone, Option.isSome_none,
    Bool.false_eq_true, if_false, Core.init_fiscal_year, hnone]

theorem base_seed_fiscal_old (x : BasePy.Strategy) (p : Rat) (ts : Date)
    (y : Int) (r : BasePy.FYRec) (h : dictFind y x.fiscal = some r) :
    dictFind y (BasePy.step_fiscal_seed x p ts).fiscal = some r := by
  by_cases hy : (dictFind ts.year x.fiscal).isSome
  · simp only [BasePy.step_fiscal_seed, hy, if_true]
    exact h
  · rw [Option.not_isSome_iff_eq_none] at hy
    rw [base_seed_fiscal_new x p ts hy]
    exact dictFind_append_some h _

theorem base_step_unfold (s : BasePy.Strategy) (org : List Row)
    (sw lw : Nat) (ts : Date) (h : ¬ org.length < lw) :
    BasePy.execute_strategy s org sw lw ts
      = BasePy.update_profit_info
          (BasePy.step_trade
            (BasePy.step_fiscal_seed (BasePy.step_dates s org ts)
              (lastClose org) ts)
            (rollLast (org.map Row.close) sw)
            (rollLast (org.map Row.close) lw) (lastClose org))
          (lastClose org) := by
  simp only [BasePy.execute_strategy, if_neg h,
    BasePy.calculate_moving_averages]

theorem core_step_unfold (s : Core.Strategy) (org : List Row)
    (sw lw : Nat) (ts : Date) (h : ¬ org.length = 0) :
    Core.execute_strategy s org sw lw ts
      = Core.update_profit_info
          (Core.step_trade
            (Core.step_fiscal_seed (Core.step_dates s org ts)
              (lastClose org) ts)
            (Core.calculate_moving_averages (org.map Row.close) sw lw).1
            (Core.calculate_moving_averages (org.map Row.close) sw lw).2
            (lastClose org))
          (lastClose org) := by
  simp only [Core.execute_strategy, if_neg h]

/-- C7: across one settled step (in either implementation, from a state
whose start date is already set), the step's period record is created
exactly once — when the period key of the step timestamp is new, the
record appears, seeded with the portfolio's entry equity (cash plus
holdings at the step price) and the step timestamp, not with the
original initial cash — and a record that already exists keeps its start
balance and start date untouched. -/
theorem period_record_created_once (sb : BasePy.Strategy)
    (sc : Core.Strategy) (org : List Row) (sw lw : Nat) (ts : Date)
    (sdb sdc : Date) (hlen : lw ≤ org.length) (h0 : 0 < org.length)
    (hsb : sb.start_date = some sdb) (hsc : sc.start_date = some sdc) :
    (dictFind ts.year sb.fiscal = none →
      ∃ r : BasePy.FYRec,
        dictFind ts.year (BasePy.execute_strategy sb org sw lw ts).fiscal
          = some r ∧
        r.start_balance
          = sb.balance + (sb.share_num : Rat) * lastClose org ∧
        r.start_date = ts) ∧
    (∀ y : Int, ∀ r : BasePy.FYRec, dictFind y sb.fiscal = some r →
      ∃ r2 : BasePy.FYRec,
        dictFind y (BasePy.execute_strategy sb org sw lw ts).fiscal
          = some r2 ∧
        r2.start_balance = r.start_balance ∧
        r2.start_date = r.start_date) ∧
    (dictFind ts.year sc.fiscal = none →
      ∃ r : Core.FYRec,
        dictFind ts.year (Core.execute_strategy sc org sw lw ts).fiscal
          = some r ∧
        r.initial_balance
          = sc.balance + (sc.share_num : Rat) * lastClose org ∧
        r.start_date = ts) ∧
    (∀ y : Int, ∀ r : Core.FYRec, dictFind y sc.fiscal = some r →
      ∃ r2 : Core.FYRec,
        dictFind y (Core.execute_strategy sc org sw lw ts).fiscal
          = some r2 ∧
        r2.initial_balance = r.initial_balance ∧
        r2.start_date = r.start_date) := by
  have hnegb : ¬ org.length < lw := by omega
  have hneg0 : ¬ org.length = 0 := by omega
  have hdb : BasePy.step_dates sb org ts
      = { sb with current_date := some ts } := by
    simp [BasePy.step_dates, hsb]
  have hdc : Core.step_dates sc org ts
      = { sc with current_date := some ts } := by
    simp [Core.step_dates, hsc]
  obtain ⟨ctb, tcb, hb⟩ := base_settle_fiscal
    (BasePy.step_fiscal_seed { sb with current_date := some ts }
      (lastClose org) ts)
    (rollLast (org.map Row.close) sw) (rollLast (org.map Row.close) lw)
    (lastClose org) ts ((base_seed_frame _ _ _).2.2.2.trans rfl)
  obtain ⟨ctc, tcc, hc⟩ := core_settle_fiscal
    (Core.step_fiscal_seed { sc with current_date := some ts }
      (lastClose org) ts)
    (Core.calculate_moving_averages (org.map Row.close) sw lw).1
    (Core.calculate_moving_averages (org.map Row.close) sw lw).2
    (lastClose org) ts ((core_seed_frame _ _ _).2.2.2.trans rfl)
  have hfiscb : (BasePy.execute_strategy sb org sw lw ts).fiscal
      = BasePy.update_fiscal_year_data
          (BasePy.step_fiscal_seed { sb with current_date := some ts }
            (lastClose org) ts).fiscal ts ctb tcb := by
    rw [base_step_unfold sb org sw lw ts hnegb, hdb]
    exact hb
  have hfiscc : (Core.execute_strategy sc org sw lw ts).fiscal
      = Core.update_fiscal_year_data
          (Core.step_fiscal_seed { sc with current_date := some ts }
            (lastClose org) ts).fiscal ts ctc tcc := by
    rw [core_step_unfold sc org sw lw ts hneg0, hdc]
    exact hc
  refine ⟨?_, ?_, ?_, ?_⟩
  · intro hnone
    have hnone2 : dictFind ts.year
        ({ sb with current_date := some ts } : BasePy.Strategy).fiscal
        = none := hnone
    have hfound : dictFind ts.year
        (BasePy.step_fiscal_seed { sb with current_date := some ts }
          (lastClose org) ts).fiscal
        = some ⟨sb.balance + (sb.share_num : Rat) * lastClose org, ts,
            sb.balance + (sb.share_num : Rat) * lastClose org, ts, 0⟩ := by
      rw [base_seed_fiscal_new _ _ _ hnone2, dictFind_append_none hnone2]
      simp [dictFind]
    rw [hfiscb, base_find_update, hfound]
    refine ⟨_, rfl, ?_, ?_⟩ <;> simp
  · intro y r hr
    have hr2 : dictFind y
        ({ sb with current_date := some ts } : BasePy.Strategy).fiscal
        = some r := hr
    have hseedf := base_seed_fiscal_old
      { sb with current_date := some ts } (lastClose org) ts y r hr2
    rw [hfiscb, base_find_update, hseedf]
    refine ⟨_, rfl, ?_, ?_⟩ <;> by_cases hyy : y = ts.year <;> simp [hyy]
  · intro hnone
    have hnone2 : dictFind ts.year
        ({ sc with current_date := some ts } : Core.Strategy).fiscal
        = none := hnone
    have hfound : dictFind ts.year
        (Core.step_fiscal_seed { sc with current_date := some ts }
          (lastClose org) ts).fiscal
        = some ⟨ts, sc.balance + (sc.share_num : Rat) * lastClose org,
            sc.balance + (sc.share_num : Rat) * lastClose org, 0,
            sc.balance + (sc.share_num : Rat) * lastClose org,
            sc.balance + (sc.share_num : Rat) * lastClose org⟩ := by
      rw [core_seed_fiscal_new _ _ _ hnone2, dictFind_append_none hnone2]
      simp [dictFind]
    rw [hfiscc, core_find_update, hfound]
    refine ⟨_, rfl, ?_, ?_⟩ <;> simp
  · intro y r hr
    have hr2 : dictFind y
        ({ sc with current_date := some ts } : Core.Strategy).fiscal
        = some r := hr
    have hseedf : dictFind y
        (Core.step_fiscal_seed { sc with current_date := some ts }
          (lastClose org) ts).fiscal = some r := by
      by_cases hy : (dictFind ts.year
          ({ sc with current_date := some ts } : Core.Strategy).fiscal).isSome
      · simp only [Core.step_fiscal_seed, hy, if_true]
        exact hr2
      · rw [Option.not_isSome_iff_eq_none] at hy
        rw [core_seed_fiscal_new _ _ _ hy]
        exact dictFind_append_some hr2 _
    rw [hfiscc, core_find_update, hseedf]
    refine ⟨_, rfl, ?_, ?_⟩ <;> by_cases hyy : y = ts.year <;> simp [hyy]

theorem period_record_created_once_witness :
    dictFind (2023 : Int)
        (([] : BasePy.FYData)) = none ∧
    ∃ r : BasePy.FYRec,
      dictFind (2023 : Int)
          (BasePy.execute_strategy
            ⟨1000000, 0, none, 0, 1000000, 0, 0, some ⟨0, 2023⟩, none, []⟩
            [⟨⟨0, 2023⟩, 50⟩] 1 1 ⟨1, 2023⟩).fiscal
        = some r ∧
      r.start_balance
        = 1000000 + ((0 : Int) : Rat) * lastClose [⟨⟨0, 2023⟩, 50⟩] ∧
      r.start_date = ⟨1, 2023⟩ :=
  ⟨rfl,
   (period_record_created_once
       ⟨1000000, 0, none, 0, 1000000, 0, 0, some ⟨0, 2023⟩, none, []⟩
       ⟨1000000, 0, 0, some ⟨0, 2023⟩, none, [], ⟨0, 0, 0⟩⟩
       [⟨⟨0, 2023⟩, 50⟩] 1 1 ⟨1, 2023⟩ ⟨0, 2023⟩ ⟨0, 2023⟩
       (by decide) (by decide) rfl rfl).1 rfl⟩

theorem base_trade_char (x : BasePy.Strategy) (sma lma p : Rat) :
    (((BasePy.step_trade x (some sma) (some lma) p).balance
        = x.balance - p * 100 ∧
      (BasePy.step_trade x (some sma) (some lma) p).share_num
        = x.share_num + 100 ∧
      (BasePy.step_trade x (some sma) (some lma) p).trade_count
        = x.trade_count + 1)
      ↔ (lma < sma ∧ p * 100 ≤ x.balance)) ∧
    (lma < sma → x.balance < p * 100 →
      (BasePy.step_trade x (some sma) (some lma) p).balance = x.balance ∧
      (BasePy.step_trade x (some sma) (some lma) p).share_num
        = x.share_num ∧
      (BasePy.step_trade x (some sma) (some lma) p).trade_count
        = x.trade_count) := by
  by_cases hbuy : BasePy.should_buy x sma lma p
  · have hy : BasePy.step_trade x (some sma) (some lma) p
        = BasePy.execute_buy x p 100 := by
      simp [BasePy.step_trade, hbuy]
    have hguard : x.balance ≥ ((100 : Int) : Rat) * p := by
      have h2 := hbuy.2
      push_cast
      linarith [mul_comm p (100 : Rat)]
    have hbeq : BasePy.execute_buy x p 100
        = { x with balance := x.balance - ((100 : Int) : Rat) * p,
                   share_num := x.share_num + 100,
                   trade_count := x.trade_count + 1,
                   last_action := some "BUY" } := by
      simp only [BasePy.execute_buy]
      rw [if_pos hguard]
    refine ⟨⟨fun _ => hbuy, fun _ => ?_⟩, fun h1 h2 => ?_⟩
    · rw [hy, hbeq]
      refine ⟨?_, rfl, rfl⟩
      push_cast
      ring
    · exact absurd hbuy.2 (not_le.mpr h2)
  · by_cases hsell : BasePy.should_sell x sma lma p
    · have hy : BasePy.step_trade x (some sma) (some lma) p
          = BasePy.execute_sell x p 100 := by
        simp [BasePy.step_trade, hbuy, hsell]
      refine ⟨⟨fun he => ?_, fun hcond => absurd hcond hbuy⟩,
        fun h1 h2 => absurd hsell.1 (lt_asymm h1)⟩
      obtain ⟨-, hsh, -⟩ := he
      rw [hy] at hsh
      simp only [BasePy.execute_sell] at hsh
      omega
    · have hy : BasePy.step_trade x (some sma) (some lma) p = x := by
        simp [BasePy.step_trade, hbuy, hsell]
      refine ⟨⟨fun he => ?_, fun hcond => absurd hcond hbuy⟩,
        fun h1 h2 => by rw [hy]; exact ⟨rfl, rfl, rfl⟩⟩
      obtain ⟨-, -, htc⟩ := he
      rw [hy] at htc
      omega

theorem core_trade_char (x : Core.Strategy) (sma lma p : Rat)
    (hp : 0 < p) :
    (((Core.step_trade x sma lma p).balance = x.balance - p * 100 ∧
      (Core.step_trade x sma lma p).share_num = x.share_num + 100 ∧
      (Core.step_trade x sma lma p).trade_count = x.trade_count + 1)
      ↔ (lma < sma ∧ p * 100 ≤ x.balance)) ∧
    (lma < sma → x.balance < p * 100 →
      (Core.step_trade x sma lma p).balance = x.balance ∧
      (Core.step_trade x sma lma p).share_num = x.share_num ∧
      (Core.step_trade x sma lma p).trade_count = x.trade_count) := by
  have hcast : ((100 : Int) : Rat) = (100 : Rat) := by push_cast; rfl
  by_cases hbuy : Core.should_buy x sma lma p
  · have hy : Core.step_trade x sma lma p = Core.execute_buy x p 100 := by
      simp [Core.step_trade, hbuy]
    by_cases hguard : p * ((100 : Int) : Rat) ≤ x.balance
    · have hbeq : Core.execute_buy x p 100
          = { x with balance := x.balance - p * ((100 : Int) : Rat),
                     share_num := x.share_num + 100,
                     trade_count := x.trade_count + 1 } := by
        simp only [Core.execute_buy]
        rw [if_pos hguard]
      refine ⟨⟨fun _ => ⟨hbuy.1, ?_⟩, fun _ => ?_⟩, fun h1 h2 => ?_⟩
      · rw [hcast] at hguard
        exact hguard
      · rw [hy, hbeq]
        exact ⟨by rw [hcast], rfl, rfl⟩
      · rw [hcast] at hguard
        linarith
    · have hy2 : Core.step_trade x sma lma p = x := by
        rw [hy]
        simp only [Core.execute_buy]
        rw [if_neg hguard]
      rw [hcast] at hguard
      refine ⟨⟨fun he => ?_, fun hcond => absurd hcond.2 hguard⟩,
        fun h1 h2 => by rw [hy2]; exact ⟨rfl, rfl, rfl⟩⟩
      obtain ⟨-, -, htc⟩ := he
      rw [hy2] at htc
      omega
  · have hnobuy : ¬ (lma < sma ∧ p * 100 ≤ x.balance) := by
      intro hcond
      exact hbuy ⟨hcond.1, by nlinarith [hcond.2]⟩
    by_cases hsell : Core.should_sell x sma lma p
    · have hy : Core.step_trade x sma lma p = Core.execute_sell x p 100 := by
        simp [Core.step_trade, hbuy, hsell]
      refine ⟨⟨fun he => ?_, fun hcond => absurd hcond hnobuy⟩,
        fun h1 h2 => absurd hsell.1 (lt_asymm h1)⟩
      obtain ⟨-, hsh, -⟩ := he
      rw [hy] at hsh
      simp only [Core.execute_sell] at hsh
      split_ifs at hsh <;> simp at hsh <;> omega
    · have hy : Core.step_trade x sma lma p = x := by
        simp [Core.step_trade, hbuy, hsell]
      refine ⟨⟨fun he => ?_, fun hcond => absurd hcond hnobuy⟩,
        fun h1 h2 => by rw [hy]; exact ⟨rfl, rfl, rfl⟩⟩
      obtain ⟨-, -, htc⟩ := he
      rw [hy] at htc
      omega

/-- C5: on a strategy step with sufficient history (both rolling means
defined, history at least the long window), a buy trade is executed —
cash decreases by price * 100, holdings increase by 100, trade count
increases by 1 — if and only if the short mean exceeds the long mean and
cash covers price * 100 (the default lot); and when the short mean
exceeds the long mean but cash falls short, the step leaves cash,
holdings and trade count unchanged.  This holds verbatim for the
src/base.py step, and for the src/core step at any positive price (where
its balance-positivity guard composed with the ledger guard is
equivalent). -/
theorem buy_condition_step (sb : BasePy.Strategy) (sc : Core.Strategy)
    (org : List Row) (sw lw : Nat) (ts : Date) (sma lma : Rat)
    (hs : rollLast (org.map Row.close) sw = some sma)
    (hl : rollLast (org.map Row.close) lw = some lma)
    (hlen : lw ≤ org.length) :
    (((BasePy.execute_strategy sb org sw lw ts).balance
        = sb.balance - lastClose org * 100 ∧
      (BasePy.execute_strategy sb org sw lw ts).share_num
        = sb.share_num + 100 ∧
      (BasePy.execute_strategy sb org sw lw ts).trade_count
        = sb.trade_count + 1)
      ↔ (lma < sma ∧ lastClose org * 100 ≤ sb.balance)) ∧
    (lma < sma → sb.balance < lastClose org * 100 →
      (BasePy.execute_strategy sb org sw lw ts).balance = sb.balance ∧
      (BasePy.execute_strategy sb org sw lw ts).share_num = sb.share_num ∧
      (BasePy.execute_strategy sb org sw lw ts).trade_count
        = sb.trade_count) ∧
    (0 < lastClose org →
      (((Core.execute_strategy sc org sw lw ts).balance
          = sc.balance - lastClose org * 100 ∧
        (Core.execute_strategy sc org sw lw ts).share_num
          = sc.share_num + 100 ∧
        (Core.execute_strategy sc org sw lw ts).trade_count
          = sc.trade_count + 1)
        ↔ (lma < sma ∧ lastClose org * 100 ≤ sc.balance)) ∧
      (lma < sma → sc.balance < lastClose org * 100 →
        (Core.execute_strategy sc org sw lw ts).balance = sc.balance ∧
        (Core.execute_strategy sc org sw lw ts).share_num
          = sc.share_num ∧
        (Core.execute_strategy sc org sw lw ts).trade_count
          = sc.trade_count)) := by
  have hnegb : ¬ org.length < lw := by omega
  have hsw : 1 ≤ sw ∧ sw ≤ (org.map Row.close).length := by
    by_contra hc
    rw [rollLast, if_neg hc] at hs
    exact Option.noConfusion hs
  have hlw : 1 ≤ lw ∧ lw ≤ (org.map Row.close).length := by
    by_contra hc
    rw [rollLast, if_neg hc] at hl
    exact Option.noConfusion hl
  have hneg0 : ¬ org.length = 0 := by
    have := hlw.1
    omega
  have hrwb : BasePy.execute_strategy sb org sw lw ts
      = BasePy.update_profit_info
          (BasePy.step_trade
            (BasePy.step_fiscal_seed (BasePy.step_dates sb org ts)
              (lastClose org) ts) (some sma) (some lma) (lastClose org))
          (lastClose org) := by
    rw [base_step_unfold sb org sw lw ts hnegb, hs, hl]
  have hXb : (BasePy.step_fiscal_seed (BasePy.step_dates sb org ts)
      (lastClose org) ts).balance = sb.balance :=
    (base_seed_frame _ _ _).1.trans (base_dates_frame _ _ _).1
  have hXs : (BasePy.step_fiscal_seed (BasePy.step_dates sb org ts)
      (lastClose org) ts).share_num = sb.share_num :=
    (base_seed_frame _ _ _).2.1.trans (base_dates_frame _ _ _).2.1
  have hXt : (BasePy.step_fiscal_seed (BasePy.step_dates sb org ts)
      (lastClose org) ts).trade_count = sb.trade_count :=
    (base_seed_frame _ _ _).2.2.1.trans (base_dates_frame _ _ _).2.2.1
  have hPb : (BasePy.execute_strategy sb org sw lw ts).balance
      = (BasePy.step_trade
          (BasePy.step_fiscal_seed (BasePy.step_dates sb org ts)
            (lastClose org) ts) (some sma) (some lma)
          (lastClose org)).balance := by
    rw [hrwb]
    exact (base_upd_frame _ _).1
  have hPs : (BasePy.execute_strategy sb org sw lw ts).share_num
      = (BasePy.step_trade
          (BasePy.step_fiscal_seed (BasePy.step_dates sb org ts)
            (lastClose org) ts) (some sma) (some lma)
          (lastClose org)).share_num := by
    rw [hrwb]
    exact (base_upd_frame _ _).2.1
  have hPt : (BasePy.execute_strategy sb org sw lw ts).trade_count
      = (BasePy.step_trade
          (BasePy.step_fiscal_seed (BasePy.step_dates sb org ts)
            (lastClose org) ts) (some sma) (some lma)
          (lastClose org)).trade_count := by
    rw [hrwb]
    exact (base_upd_frame _ _).2.2
  have hma : Core.calculate_moving_averages (org.map Row.close) sw lw
      = (sma, lma) := by
    have hm : ¬ (org.map Row.close).length < max sw lw := by
      have h1 := hsw.2
      have h2 := hlw.2
      omega
    simp only [Core.calculate_moving_averages, if_neg hm, hs, hl,
      Option.getD_some]
  have hrwc : Core.execute_strategy sc org sw lw ts
      = Core.update_profit_info
          (Core.step_trade
            (Core.step_fiscal_seed (Core.step_dates sc org ts)
              (lastClose org) ts) sma lma (lastClose org))
          (lastClose org) := by
    rw [core_step_unfold sc org sw lw ts hneg0, hma]
  have hYb : (Core.step_fiscal_seed (Core.step_dates sc org ts)
      (lastClose org) ts).balance = sc.balance :=
    (core_seed_frame _ _ _).1.trans (core_dates_frame _ _ _).1
  have hYs : (Core.step_fiscal_seed (Core.step_dates sc org ts)
      (lastClose org) ts).share_num = sc.share_num :=
    (core_seed_frame _ _ _).2.1.trans (core_dates_frame _ _ _).2.1
  have hYt : (Core.step_fiscal_seed (Core.step_dates sc org ts)
      (lastClose org) ts).trade_count = sc.trade_count :=
    (core_seed_frame _ _ _).2.2.1.trans (core_dates_frame _ _ _).2.2.1
  have hQb : (Core.execute_strategy sc org sw lw ts).balance
      = (Core.step_trade
          (Core.step_fiscal_seed (Core.step_dates sc org ts)
            (lastClose org) ts) sma lma (lastClose org)).balance := by
    rw [hrwc]
    exact (core_upd_frame _ _).1
  have hQs : (Core.execute_strategy sc org sw lw ts).share_num
      = (Core.step_trade
          (Core.step_fiscal_seed (Core.step_dates sc org ts)
            (lastClose org) ts) sma lma (lastClose org)).share_num := by
    rw [hrwc]
    exact (core_upd_frame _ _).2.1
  have hQt : (Core.execute_strategy sc org sw lw ts).trade_count
      = (Core.step_trade
          (Core.step_fiscal_seed (Core.step_dates sc org ts)
            (lastClose org) ts) sma lma (lastClose org)).trade_count := by
    rw [hrwc]
    exact (core_upd_frame _ _).2.2
  refine ⟨?_, ?_, ?_⟩
  · rw [hPb, hPs, hPt]
    have h := (base_trade_char
      (BasePy.step_fiscal_seed (BasePy.step_dates sb org ts)
        (lastClose org) ts) sma lma (lastClose org)).1
    rw [hXb, hXs, hXt] at h
    exact h
  · intro h1 h2
    rw [hPb, hPs, hPt]
    have h := (base_trade_char
      (BasePy.step_fiscal_seed (BasePy.step_dates sb org ts)
        (lastClose org) ts) sma lma (lastClose org)).2
    rw [hXb, hXs, hXt] at h
    exact h h1 h2
  · intro hp
    constructor
    · rw [hQb, hQs, hQt]
      have h := (core_trade_char
        (Core.step_fiscal_seed (Core.step_dates sc org ts)
          (lastClose org) ts) sma lma (lastClose org) hp).1
      rw [hYb, hYs, hYt] at h
      exact h
    · intro h1 h2
      rw [hQb, hQs, hQt]
      have h := (core_trade_char
        (Core.step_fiscal_seed (Core.step_dates sc org ts)
          (lastClose org) ts) sma lma (lastClose org) hp).2
      rw [hYb, hYs, hYt] at h
      exact h h1 h2

theorem buy_condition_step_witness :
    (BasePy.execute_strategy BasePy.strategyInit
        [⟨⟨0, 2023⟩, 10⟩, ⟨⟨1, 2023⟩, 20⟩] 1 2 ⟨2, 2023⟩).balance
      = BasePy.strategyInit.balance
          - lastClose [⟨⟨0, 2023⟩, 10⟩, ⟨⟨1, 2023⟩, 20⟩] * 100 ∧
    (BasePy.execute_strategy BasePy.strategyInit
        [⟨⟨0, 2023⟩, 10⟩, ⟨⟨1, 2023⟩, 20⟩] 1 2 ⟨2, 2023⟩).share_num
      = BasePy.strategyInit.share_num + 100 ∧
    (BasePy.execute_strategy BasePy.strategyInit
        [⟨⟨0, 2023⟩, 10⟩, ⟨⟨1, 2023⟩, 20⟩] 1 2 ⟨2, 2023⟩).trade_count
      = BasePy.strategyInit.trade_count + 1 :=
  (buy_condition_step BasePy.strategyInit Core.strategyInit
      [⟨⟨0, 2023⟩, 10⟩, ⟨⟨1, 2023⟩, 20⟩] 1 2 ⟨2, 2023⟩ 20 15
      (by norm_num [rollLast, listMean, lastN])
      (by norm_num [rollLast, listMean, lastN])
      (by norm_num)).1.mpr
    (by
      refine ⟨by norm_num, ?_⟩
      norm_num [lastClose, BasePy.strategyInit, List.getLastD])
